import Mathlib

set_option maxHeartbeats 1000000
set_option autoImplicit false

/- Verification of the custom_logging package (src/custom_logging/__main__.py):
   a shallow embedding of the attribute-injection and formatting pipeline
   (CustomFilter, LogFormatter, CustomLogAdapter, configure_logging,
   get_log_file_from_handler) together with theorems about its behaviour. -/

/-- Python-style attribute and argument values occurring in this code:
the null value `None` or a string.  Truthiness follows Python. -/
inductive PyVal where
  | none : PyVal
  | str : String → PyVal
deriving DecidableEq

/-- Python truthiness of a value: `None` is falsy, a string is truthy iff nonempty. -/
def PyVal.truthy : PyVal → Bool
  | PyVal.none => false
  | PyVal.str s => !(s == "")

/-- Python `str()` of a value, as interpolated by an f-string. -/
def PyVal.asStr : PyVal → String
  | PyVal.none => "None"
  | PyVal.str s => s

/-- A Python dict with string keys, as an association list (keys unique in practice). -/
abbrev PyDict := List (String × PyVal)

/-- `d.get(k)` without a default: `some` of the stored value, or `none` when absent. -/
def dictFind? : PyDict → String → Option PyVal
  | [], _ => Option.none
  | (k', v) :: rest, k => if k' = k then Option.some v else dictFind? rest k

/-- `d.get(k)` as used by the code: returns `None` when the key is absent. -/
def dictGet (d : PyDict) (k : String) : PyVal :=
  (dictFind? d k).getD PyVal.none

/-- `d[k] = v` / `setattr`: replace the binding for `k`, or append it. -/
def dictSet : PyDict → String → PyVal → PyDict
  | [], k, v => [(k, v)]
  | (k', v') :: rest, k, v =>
    if k' = k then (k, v) :: rest else (k', v') :: dictSet rest k v

/-- Lookup in a string-to-string table (models Python dict lookup on the
constant tables `LogFormatter.colored_levels` and the colorizer's attributes). -/
def lookupStr : List (String × String) → String → Option String
  | [], _ => Option.none
  | (k, v) :: rest, k' => if k = k' then Option.some v else lookupStr rest k'

/-- A `logging.LogRecord` as seen by this pipeline: the message template `msg`,
the level name, the call's arguments `args` (`None` or a dict — the fragment the
filter and formatter rely on), and the rest of the record's `__dict__`, which
holds the logger name under `"name"` and any filter-injected attributes. -/
structure LogRecord where
  msg : String
  levelname : String
  args : Option PyDict
  attrs : PyDict
deriving DecidableEq

/-- Python truthiness of `record.args` (`None` and the empty dict are falsy). -/
def argsTruthy : Option PyDict → Bool
  | Option.none => false
  | Option.some d => !d.isEmpty

/-- `record.args.get("color")` after the `record.args or dict()` normalization:
the per-call color override carried by the record, `None` when absent. -/
def LogRecord.colorOverride (r : LogRecord) : PyVal :=
  match r.args with
  | Option.none => PyVal.none
  | Option.some d => dictGet d "color"

/-- Modelled from the spec: the external Colorizer (`colors.CText`) maps a
semantic color name to a terminal-escape-wrapping function over a string;
the `default` attribute is the identity (no-op) wrapper.  Only the color
names used by `LogFormatter` are listed. -/
def ctextColors : List (String × String) :=
  [("magenta", "35"), ("red", "31"), ("yellow", "33"), ("green", "32"), ("white", "37")]

/-- `hasattr(CText, c)`: whether `c` names a known colorizer attribute. -/
def hasattrCText (c : String) : Bool :=
  (lookupStr ctextColors c).isSome || c == "default"

/-- `getattr(CText, c)(s)`: wrap `s` in the escape sequence of color `c`;
`default` (and any unlisted name) is the identity wrapper. -/
def CText (c : String) (s : String) : String :=
  match lookupStr ctextColors c with
  | Option.some code => "\x1b[" ++ code ++ "m" ++ s ++ "\x1b[0m"
  | Option.none => s

/-- `LogFormatter.colored_levels`: severity name to color name. -/
def colored_levels : List (String × String) :=
  [("ERROR", "magenta"), ("CRITICAL", "red"), ("WARNING", "yellow"),
   ("INFO", "green"), ("DEBUG", "white")]

/-- Python `f"{s:>8}"`: right-align `s` in a field of width 8 (pad with
spaces on the left; strings of length at least 8 are unchanged). -/
def padLeft8 (s : String) : String :=
  if s.length < 8 then String.mk (List.replicate (8 - s.length) ' ') ++ s else s

/-- `LogFormatter` state: the active format template `self._style._fmt`
and the color-disable flag. -/
structure LogFormatter where
  fmt : String
  disable_color : Bool
deriving DecidableEq

/-- `record.args = record.args or dict()` (line 42 of the source):
normalize a falsy `args` to the empty dict. -/
def normArgs (r : LogRecord) : LogRecord :=
  { r with args := if argsTruthy r.args then r.args else Option.some [] }

/-- The template in effect at the delegation to the base renderer: when color
is enabled and the record carries a truthy color override, the whole template
is replaced by the override color's wrapper applied to `"%(msg)s"` (an unknown
color name falls back to the `default` wrapper); otherwise the original
template is used. -/
def fmtForRecord (self : LogFormatter) (r1 : LogRecord) : String :=
  if self.disable_color = false && (r1.colorOverride).truthy then
    CText (if hasattrCText (r1.colorOverride).asStr then (r1.colorOverride).asStr
           else "default") "%(msg)s"
  else self.fmt

/-- The two levelname assignments of `LogFormatter.format`: unless color is
disabled, wrap the right-aligned level name in its severity color (unknown
severities use the `default` no-op wrapper); then right-align to width 8 again. -/
def formatLevelname (disable_color : Bool) (lvl : String) : String :=
  padLeft8 (if disable_color = false then
      CText ((lookupStr colored_levels lvl).getD "default") (padLeft8 lvl)
    else lvl)

/-- `record.msg = f"{record.name}: {record.msg}" if record.__dict__.get("name")
else record.msg`: the name attribute, when truthy, becomes a message prefix. -/
def addNameToMsg (r1 : LogRecord) : String :=
  if (dictGet r1.attrs "name").truthy then
    (dictGet r1.attrs "name").asStr ++ ": " ++ r1.msg
  else r1.msg

/-- Scan up to the `")s"` closing a `%(key)s` conversion, returning the key
characters and the remainder. -/
def splitKey : List Char → Option (List Char × List Char)
  | [] => Option.none
  | ')' :: 's' :: rest => Option.some ([], rest)
  | c :: rest =>
    match splitKey rest with
    | Option.some (k, r) => Option.some (c :: k, r)
    | Option.none => Option.none

/-- Python `%`-interpolation over `%(key)s` conversions, with explicit fuel
(one unit per consumed character suffices).  Keys the mapping does not
resolve are left in place. -/
def pyInterpFuel (f : String → Option String) : Nat → List Char → List Char
  | 0, s => s
  | _ + 1, [] => []
  | fuel + 1, '%' :: '(' :: rest =>
    match splitKey rest with
    | Option.some (k, rest') =>
      match f (String.mk k) with
      | Option.some v => v.data ++ pyInterpFuel f fuel rest'
      | Option.none => '%' :: '(' :: pyInterpFuel f fuel rest
    | Option.none => '%' :: '(' :: pyInterpFuel f fuel rest
  | fuel + 1, c :: rest => c :: pyInterpFuel f fuel rest

/-- `template % mapping` restricted to the `%(key)s` conversions this
repository's templates use. -/
def pyInterp (s : String) (f : String → Option String) : String :=
  String.mk (pyInterpFuel f s.data.length s.data)

/-- `record.getMessage()`: the message template, `%`-interpolated with the
call's arguments when they are truthy. -/
def getMessage (r : LogRecord) : String :=
  if argsTruthy r.args then
    pyInterp r.msg (fun k => (dictFind? (r.args.getD []) k).map PyVal.asStr)
  else r.msg

/-- The record's rendering dictionary as consulted by the base
`logging.Formatter.format`: `message` is the interpolated message, `asctime`
(timestamps are outside this model) a fixed placeholder, and every other key
resolves through the record's `__dict__`. -/
def recordDictLookup (r : LogRecord) : String → Option String
  | "levelname" => Option.some r.levelname
  | "message" => Option.some (getMessage r)
  | "msg" => Option.some r.msg
  | "asctime" => Option.some "ASCTIME"
  | k => (dictFind? r.attrs k).map PyVal.asStr

/-- The base renderer `logging.Formatter.format`: interpolate the active
template over the record's rendering dictionary. -/
def baseFormat (fmt : String) (r : LogRecord) : String :=
  pyInterp fmt (recordDictLookup r)

/-- The outcome of one `LogFormatter.format` call on the copied record:
the rendered line, the template that was in effect at the delegation to the
base renderer, and the final state of the record copy. -/
structure FormatOut where
  result : String
  fmtUsed : String
  recordOut : LogRecord
deriving DecidableEq

/-- The record-level body of `LogFormatter.format` (source lines 41 to 52),
operating on the value of the record copy: normalize `args`, compute the
(possibly overridden) template, color and pad the level name, apply the name
prefixing to the message, and delegate to the base renderer. -/
def formatRecordData (self : LogFormatter) (r0 : LogRecord) : FormatOut :=
  let record1 := normArgs r0
  let fmtUsed := fmtForRecord self record1
  let recordOut : LogRecord :=
    { record1 with
        levelname := formatLevelname self.disable_color record1.levelname,
        msg := addNameToMsg record1 }
  { result := baseFormat fmtUsed recordOut, fmtUsed := fmtUsed, recordOut := recordOut }

/-- `CustomFilter`: holds the mapping of attribute name to default value it
was constructed with. -/
structure CustomFilter where
  custom_filter : PyDict
deriving DecidableEq

/-- One iteration of the loop in `CustomFilter.filter`:
`setattr(record, attribute, record.args.get(attribute) if record.args else value)`. -/
def applyAttr (r : LogRecord) (av : String × PyVal) : LogRecord :=
  let v := if argsTruthy r.args then dictGet (r.args.getD []) av.1 else av.2
  { r with attrs := dictSet r.attrs av.1 v }

/-- `CustomFilter.filter`: set every configured attribute on the record
(per-call argument value when `record.args` is truthy, else the default),
and return `True` (the record is never suppressed). -/
def CustomFilter.filter (f : CustomFilter) (record : LogRecord) : LogRecord × Bool :=
  (f.custom_filter.foldl applyAttr record, true)

/-- The kind of each handler this code constructs: a stdout stream handler,
a file handler, or a no-op null handler. -/
inductive HandlerKind where
  | stream : HandlerKind
  | file : HandlerKind
  | null : HandlerKind
deriving DecidableEq

/-- A configured `logging.Handler`: its kind, its `name` attribute, its own
severity threshold, the format template of its formatter, the formatter's
color-disable flag (meaningful only for the stdout handler, whose formatter
is a `LogFormatter`), and, for a file handler, the resolved path stored
under `baseFilename` in its `__dict__`. -/
structure Handler where
  kind : HandlerKind
  name : Option String
  level : Nat
  fmtTemplate : String
  disable_color : Bool
  baseFilename : Option String
deriving DecidableEq

/-- `isinstance(handler, logging.FileHandler)`. -/
def Handler.isFileHandler (h : Handler) : Bool :=
  match h.kind with
  | HandlerKind.file => true
  | _ => false

/-- The mutable state of a `logging.Logger` that this code interacts with:
its own severity threshold, its handlers, and its attached filters. -/
structure Logger where
  level : Nat
  handlers : List Handler
  filters : List CustomFilter
deriving DecidableEq

/-- `CustomLogAdapter.process`: attach a fresh `CustomFilter` built from the
call's keyword arguments (`kwargs or dict()`) to the underlying logger, and
return the message unchanged together with an empty keyword mapping. -/
def CustomLogAdapter.process (logger : Logger) (msg : String) (kwargs : PyDict) :
    Logger × String × PyDict :=
  ({ logger with filters :=
      logger.filters ++ [CustomFilter.mk (if kwargs.isEmpty then [] else kwargs)] },
   msg, [])

/-- Constant from `custom_logging.lib.constants`. -/
def LOGGER_NAME : String := "LOGGING"

/-- Constant from `custom_logging.lib.constants`. -/
def DEFAULT_LOG_FILE_NAME : String := "logging.log"

/-- Constant from `custom_logging.lib.constants`. -/
def DEFAULT_LOGGER_FILE_HANDLER_NAME : String := LOGGER_NAME ++ "_FILE_HANDLER_NAME"

/-- `getattr(logging, level)`: the numeric value of a level name. -/
def levelNum : String → Nat
  | "CRITICAL" => 50
  | "ERROR" => 40
  | "WARNING" => 30
  | "INFO" => 20
  | "DEBUG" => 10
  | _ => 0

/-- `logging.getLevelName` on a numeric level. -/
def getLevelName (n : Nat) : String :=
  if n = 50 then "CRITICAL"
  else if n = 40 then "ERROR"
  else if n = 30 then "WARNING"
  else if n = 20 then "INFO"
  else if n = 10 then "DEBUG"
  else if n = 0 then "NOTSET"
  else "Level " ++ toString n

/-- The members of the local `VerbosityLevels` enum of `configure_logging`,
as (name, value) pairs in declaration order. -/
def verbosityLevelsMembers : List (String × Nat) :=
  [("WARNING", 0), ("INFO", 1), ("DEBUG", 2)]

/-- `VerbosityLevels(min(verbose, len(VerbosityLevels.__members__) - 1)).name`:
look the clamped count up among the enum's values (`none` would mean the enum
lookup raises, which the clamping rules out). -/
def verbosityName (verbose : Nat) : Option String :=
  (verbosityLevelsMembers.find?
    (fun p => p.2 == min verbose (verbosityLevelsMembers.length - 1))).map Prod.fst

/-- Modelled from the spec: the host runtime resolves a file handler's path to
an absolute path (`logging.FileHandler` stores the absolute path under
`baseFilename`); modelled by resolving against a fixed working directory. -/
def os_path_abspath (p : String) : String := "/cwd/" ++ p

/-- `_get_configured_stdout_handler`: a stream handler at the verbosity level
whose formatter is a `LogFormatter` over `"%(levelname)s %(message)s"`. -/
def _get_configured_stdout_handler (level : String) (disable_color : Bool) : Handler :=
  { kind := HandlerKind.stream, name := Option.none, level := levelNum level,
    fmtTemplate := "%(levelname)s %(message)s", disable_color := disable_color,
    baseFilename := Option.none }

/-- `_get_configured_file_handler`: a null handler when logging is skipped,
else a file handler on the given file; either way named `file_handler_name`,
thresholded at DEBUG, with a plain timestamped formatter. -/
def _get_configured_file_handler (filename : String) (skip_logging : Bool)
    (file_handler_name : String) : Handler :=
  if skip_logging then
    { kind := HandlerKind.null, name := Option.some file_handler_name, level := 10,
      fmtTemplate := "%(asctime)s %(levelname)s %(message)s", disable_color := false,
      baseFilename := Option.none }
  else
    { kind := HandlerKind.file, name := Option.some file_handler_name, level := 10,
      fmtTemplate := "%(asctime)s %(levelname)s %(message)s", disable_color := false,
      baseFilename := Option.some (os_path_abspath filename) }

/-- `_get_log_file`: `os.path.join(log_path, file)`. -/
def _get_log_file (log_path : String) (file : String) : String :=
  log_path ++ "/" ++ file

/-- The one record emission performed by `configure_logging`:
`logger.log(logger.level, f"Verbosity level: {logger_name} = {...}")`. -/
structure LogCall where
  levelno : Nat
  msg : String
deriving DecidableEq

/-- A logger as first obtained from `logging.getLogger`: level NOTSET,
no handlers, no filters. -/
def initLogger : Logger :=
  { level := 0, handlers := [], filters := [] }

/-- `configure_logging` on a given logger state (the directory creation is
filesystem-only and outside this model): compute the verbosity level name
from the clamped count, set the logger's own level to DEBUG, append the
stdout handler and the file handler, and emit one record at `logger.level`
announcing `f"Verbosity level: {logger_name} = {getLevelName(logger.level)}"`. -/
def configure_logging (verbose : Nat) (disable_color : Bool) (skip_logging : Bool)
    (log_path : String) (logger_name : String) (logger : Logger) : Logger × LogCall :=
  let level := (verbosityName verbose).getD "UNDEFINED"
  let logger1 := { logger with level := 10 }
  let logger2 := { logger1 with handlers :=
    logger1.handlers ++ [_get_configured_stdout_handler level disable_color] }
  let logger3 := { logger2 with handlers :=
    logger2.handlers ++ [_get_configured_file_handler
      (_get_log_file log_path DEFAULT_LOG_FILE_NAME) skip_logging
      DEFAULT_LOGGER_FILE_HANDLER_NAME] }
  (logger3,
   { levelno := logger3.level,
     msg := "Verbosity level: " ++ logger_name ++ " = " ++ getLevelName logger3.level })

/-- `get_log_file_from_handler` on a logger state: keep the handlers that are
file handlers bearing the requested name, take element `[0]` (`none` models
the `IndexError` that an empty list propagates to the caller), and return
`handler.__dict__.get("baseFilename", str())`. -/
def get_log_file_from_handler (logger : Logger) (file_handler_name : String) :
    Option String :=
  match logger.handlers.filter
      (fun h => h.isFileHandler && (h.name == Option.some file_handler_name)) with
  | [] => Option.none
  | h :: _ => Option.some (h.baseFilename.getD "")

/-- Modelled from the spec: record creation by the host logging runtime —
a standard record's `__dict__` holds its logger's name under `"name"`. -/
def makeRecord (loggerName : String) (lvl : String) (msg : String)
    (args : Option PyDict) : LogRecord :=
  { msg := msg, levelname := lvl, args := args,
    attrs := [("name", PyVal.str loggerName)] }

/-- A heap of record objects, keyed by identity: Python mutates records in
place through references, so mutation claims are stated against this store. -/
structure Heap where
  recs : List (Nat × LogRecord)
  next : Nat
deriving DecidableEq

/-- Read the record object with identity `i`. -/
def recsGet : List (Nat × LogRecord) → Nat → Option LogRecord
  | [], _ => Option.none
  | (i, r) :: rest, j => if i = j then Option.some r else recsGet rest j

/-- Overwrite the record object with identity `i` in place. -/
def recsSet : List (Nat × LogRecord) → Nat → LogRecord → List (Nat × LogRecord)
  | [], _, _ => []
  | (i, r) :: rest, j, r' =>
    if i = j then (i, r') :: rest else (i, r) :: recsSet rest j r'

/-- Read the record object with identity `i`. -/
def Heap.get (h : Heap) (i : Nat) : Option LogRecord := recsGet h.recs i

/-- Overwrite the record object with identity `i` in place. -/
def Heap.set (h : Heap) (i : Nat) (r : LogRecord) : Heap :=
  { h with recs := recsSet h.recs i r }

/-- Allocate a new record object (`copy.copy` allocates): returns the heap
with the fresh object and the fresh identity. -/
def Heap.alloc (h : Heap) (r : LogRecord) : Heap × Nat :=
  ({ recs := (h.next, r) :: h.recs, next := h.next + 1 }, h.next)

/-- Heap well-formedness: every live identity is below the allocation counter. -/
abbrev Heap.WF (h : Heap) : Prop := ∀ p ∈ h.recs, p.1 < h.next

/-- `LogFormatter.format` at the object level: cache the original template,
copy the record (a fresh object), mutate and render only the copy, restore
the template, and return the rendered line, the formatter (its template
restored to the cached original), and the resulting heap. -/
def LogFormatter.format (self : LogFormatter) (h : Heap) (rid : Nat) :
    Option (String × LogFormatter × Heap) :=
  (h.get rid).map (fun r0 =>
    let original_fmt := self.fmt
    let alloc := h.alloc r0
    let out := formatRecordData self r0
    (out.result, { self with fmt := original_fmt }, alloc.1.set alloc.2 out.recordOut))

/-- Drop the remainder of an ANSI escape sequence (through its final `m`). -/
def dropEsc : List Char → List Char
  | [] => []
  | 'm' :: rest => rest
  | _ :: rest => dropEsc rest

/-- Remove ANSI color escape sequences, with explicit fuel (one unit per
consumed character suffices). -/
def stripAnsiFuel : Nat → List Char → List Char
  | 0, s => s
  | _ + 1, [] => []
  | fuel + 1, '\x1b' :: '[' :: rest => stripAnsiFuel fuel (dropEsc rest)
  | fuel + 1, c :: rest => c :: stripAnsiFuel fuel rest

/-- Remove ANSI color escape sequences from a string: what remains is the
text a terminal displays, so its length is the displayed width. -/
def stripAnsi (s : String) : String :=
  String.mk (stripAnsiFuel s.data.length s.data)

/-- A logger configured with `skip_logging=True` (its file-backed handler is a
`NullHandler`). -/
def cfgSkipLogger : Logger :=
  (configure_logging 0 false true "logs" "LOGGING" initLogger).1

/-- A logger configured with `skip_logging=False` (a real `FileHandler`). -/
def cfgFileLogger : Logger :=
  (configure_logging 0 false false "logs" "LOGGING" initLogger).1

/-- A stdout-handler formatter as built by `_get_configured_stdout_handler`,
with color enabled. -/
def wFmtr : LogFormatter :=
  { fmt := "%(levelname)s %(message)s", disable_color := false }

/-- A concrete record: an INFO record of logger "LOGGING" with no call
arguments. -/
def wRec : LogRecord :=
  { msg := "hello", levelname := "INFO", args := Option.none,
    attrs := [("name", PyVal.str "LOGGING")] }

/-- A one-record heap holding `wRec` at identity 0. -/
def wHeap : Heap := { recs := [(0, wRec)], next := 1 }

/-- The outcome of formatting `wRec` (heap identity 0) with `wFmtr`. -/
def wOut : String × LogFormatter × Heap :=
  (LogFormatter.format wFmtr wHeap 0).getD ("", wFmtr, wHeap)

/-- A record carrying a per-call color override naming an unknown color, with
an unmapped severity name. -/
def wRecUnknown : LogRecord :=
  { msg := "hello", levelname := "TRACE",
    args := Option.some [("color", PyVal.str "nosuch")], attrs := [] }

/-- A one-record heap holding `wRecUnknown` at identity 0. -/
def wHeapUnknown : Heap := { recs := [(0, wRecUnknown)], next := 1 }

/-- The stdout-handler formatter with color disabled. -/
def wFmtrNoColor : LogFormatter :=
  { fmt := "%(levelname)s %(message)s", disable_color := true }

/-- An INFO record whose call supplied a color override naming an unknown
color. -/
def wRecOverride : LogRecord :=
  { msg := "hello", levelname := "INFO",
    args := Option.some [("color", PyVal.str "nosuch")], attrs := [] }

theorem dictFind?_dictSet_self (d : PyDict) (k : String) (v : PyVal) :
    dictFind? (dictSet d k v) k = Option.some v := by
  induction d with
  | nil => simp [dictSet, dictFind?]
  | cons p rest ih =>
    obtain ⟨a, b⟩ := p
    by_cases h : a = k
    · subst h; simp [dictSet, dictFind?]
    · simp [dictSet, dictFind?, h, ih]

theorem dictFind?_dictSet_ne (d : PyDict) (k k' : String) (v : PyVal) (hne : k ≠ k') :
    dictFind? (dictSet d k v) k' = dictFind? d k' := by
  induction d with
  | nil => simp [dictSet, dictFind?, hne]
  | cons p rest ih =>
    obtain ⟨a, b⟩ := p
    by_cases h : a = k
    · subst h; simp [dictSet, dictFind?, hne]
    · simp [dictSet, dictFind?, h, ih]

theorem foldl_applyAttr_args (l : PyDict) (r : LogRecord) :
    (List.foldl applyAttr r l).args = r.args := by
  induction l generalizing r with
  | nil => rfl
  | cons p t ih => rw [List.foldl_cons, ih]; simp [applyAttr]

theorem foldl_applyAttr_notin (l : PyDict) (r : LogRecord) (a : String)
    (hnot : a ∉ l.map Prod.fst) :
    dictGet (List.foldl applyAttr r l).attrs a = dictGet r.attrs a := by
  induction l generalizing r with
  | nil => rfl
  | cons p t ih =>
    simp only [List.map_cons, List.mem_cons, not_or] at hnot
    rw [List.foldl_cons, ih _ hnot.2]
    show dictGet (dictSet r.attrs p.1 _) a = dictGet r.attrs a
    unfold dictGet
    rw [dictFind?_dictSet_ne _ _ _ _ (Ne.symm hnot.1)]

theorem foldl_applyAttr_mem (l : PyDict) (r : LogRecord) (a : String) (v : PyVal)
    (hnd : (l.map Prod.fst).Nodup) (hmem : (a, v) ∈ l) :
    dictGet (List.foldl applyAttr r l).attrs a =
      if argsTruthy r.args then dictGet (r.args.getD []) a else v := by
  induction l generalizing r with
  | nil => simp at hmem
  | cons p t ih =>
    simp only [List.map_cons, List.nodup_cons] at hnd
    rcases List.mem_cons.mp hmem with heq | hmem'
    · subst heq
      rw [List.foldl_cons, foldl_applyAttr_notin _ _ _ hnd.1]
      simp [applyAttr, dictGet, dictFind?_dictSet_self]
    · rw [List.foldl_cons]
      exact ih _ hnd.2 hmem'

/-- Claim C1 (amended): for every (name, default) pair of an Attribute Filter,
the filter sets the record's attribute to `record.args.get(name)` whenever the
call-time argument mapping is truthy — the supplied value if one was supplied
for `name`, else `None` — and to the default value only when the call supplied
no argument mapping at all (or an empty one). -/
theorem c1_attr_injection (f : CustomFilter) (r : LogRecord) (a : String) (v : PyVal)
    (hnd : (f.custom_filter.map Prod.fst).Nodup) (hmem : (a, v) ∈ f.custom_filter) :
    dictGet ((f.filter r).1).attrs a =
      if argsTruthy r.args then dictGet (r.args.getD []) a else v :=
  foldl_applyAttr_mem _ _ _ _ hnd hmem

theorem c1_attr_injection_witness :
    dictGet ((CustomFilter.filter ⟨[("name", PyVal.str "N")]⟩
        { msg := "m", levelname := "INFO", args := Option.none, attrs := [] }).1).attrs "name"
      = if argsTruthy (Option.none : Option PyDict)
        then dictGet ((Option.none : Option PyDict).getD []) "name"
        else PyVal.str "N" :=
  c1_attr_injection ⟨[("name", PyVal.str "N")]⟩
    { msg := "m", levelname := "INFO", args := Option.none, attrs := [] }
    "name" (PyVal.str "N") (by decide) (by decide)

/-- Claim C1 counterexample: with a filter constructed from the mapping
name ↦ "N" and a record whose call supplied a value for another attribute
(`color`) but not for `name`, the filter sets the record's `name` attribute
to `None`, not to the default "N" — refuting the claim that the default is
used whenever the call supplied no value for `name`. -/
theorem c1_counterexample :
    dictGet ((CustomFilter.filter ⟨[("name", PyVal.str "N")]⟩
        { msg := "m", levelname := "INFO",
          args := Option.some [("color", PyVal.str "red")], attrs := [] }).1).attrs "name"
        = PyVal.none ∧
    PyVal.none ≠ PyVal.str "N" := by decide

/-- Claim C7: the computed verbosity level is WARNING for count 0, INFO for
count 1, and DEBUG for every count of at least 2 — counts beyond the
three-point scale are clamped to DEBUG rather than failing. -/
theorem c7_verbosity_scale :
    verbosityName 0 = Option.some "WARNING" ∧
    verbosityName 1 = Option.some "INFO" ∧
    ∀ v : Nat, 2 ≤ v → verbosityName v = Option.some "DEBUG" := by
  refine ⟨by decide, by decide, fun v hv => ?_⟩
  have hmin : min v (verbosityLevelsMembers.length - 1) = 2 := by
    simp only [verbosityLevelsMembers, List.length_cons, List.length_nil]
    omega
  simp only [verbosityName, hmin]
  decide

theorem c7_verbosity_scale_witness :
    verbosityName 5 = Option.some "DEBUG" :=
  c7_verbosity_scale.2.2 5 (by decide)

/-- Claim C8: `CustomLogAdapter.process` appends exactly one fresh
`CustomFilter` holding the call's keyword arguments to the underlying
logger's filters, and returns the message unchanged paired with an empty
keyword mapping. -/
theorem c8_process_fresh_filter (logger : Logger) (msg : String) (kwargs : PyDict) :
    (CustomLogAdapter.process logger msg kwargs).1.filters
        = logger.filters ++ [CustomFilter.mk kwargs] ∧
    (CustomLogAdapter.process logger msg kwargs).2.1 = msg ∧
    (CustomLogAdapter.process logger msg kwargs).2.2 = [] := by
  refine ⟨?_, rfl, rfl⟩
  cases kwargs with
  | nil => rfl
  | cons p t => rfl

/-- Claim C6: the record emitted by `configure_logging` is logged at
`logger.level`, which the function has just set to DEBUG (10), and its text
always reads "Verbosity level: <name> = DEBUG" — even for verbosity count 0,
whose resolved verbosity level is WARNING.  The announcement therefore does
not report the resolved verbosity level. -/
theorem c6_startup_message :
    (configure_logging 0 false false "logs" "LOGGING" initLogger).2.msg
        = "Verbosity level: LOGGING = DEBUG" ∧
    (configure_logging 0 false false "logs" "LOGGING" initLogger).2.levelno = 10 ∧
    verbosityName 0 = Option.some "WARNING" := by decide

/-- Claim C9: when no attached handler is a file handler bearing the requested
handler name, `get_log_file_from_handler` propagates a lookup failure
(modelled as `none`, the `IndexError` of indexing an empty list); when a
matching handler exists, it returns the first matching handler's resolved
`baseFilename`. -/
theorem c9_handler_lookup (L : Logger) (n : String) :
    ((∀ hd ∈ L.handlers, (hd.isFileHandler && (hd.name == Option.some n)) = false) →
      get_log_file_from_handler L n = Option.none) ∧
    (∀ hd t, L.handlers.filter
        (fun h => h.isFileHandler && (h.name == Option.some n)) = hd :: t →
      get_log_file_from_handler L n = Option.some (hd.baseFilename.getD "")) := by
  constructor
  · intro hnone
    have hnil : L.handlers.filter
        (fun h => h.isFileHandler && (h.name == Option.some n)) = [] := by
      rw [List.filter_eq_nil_iff]
      intro a ha
      simp [hnone a ha]
    unfold get_log_file_from_handler
    rw [hnil]
  · intro hd t heq
    unfold get_log_file_from_handler
    rw [heq]

theorem c9_handler_lookup_witness :
    get_log_file_from_handler cfgSkipLogger DEFAULT_LOGGER_FILE_HANDLER_NAME
        = Option.none ∧
    get_log_file_from_handler cfgFileLogger DEFAULT_LOGGER_FILE_HANDLER_NAME
        = Option.some "/cwd/logs/logging.log" := by
  constructor
  · exact (c9_handler_lookup cfgSkipLogger DEFAULT_LOGGER_FILE_HANDLER_NAME).1 (by decide)
  · exact (c9_handler_lookup cfgFileLogger DEFAULT_LOGGER_FILE_HANDLER_NAME).2
      (_get_configured_file_handler (_get_log_file "logs" DEFAULT_LOG_FILE_NAME) false
        DEFAULT_LOGGER_FILE_HANDLER_NAME) [] (by decide)

theorem padLeft8_length (s : String) : 8 ≤ (padLeft8 s).length := by
  unfold padLeft8
  by_cases h : s.length < 8
  · rw [if_pos h, String.length_append]
    have hr : (String.mk (List.replicate (8 - s.length) ' ')).length = 8 - s.length := by
      show (List.replicate (8 - s.length) ' ').length = 8 - s.length
      simp
    rw [hr]
    omega
  · rw [if_neg h]
    omega

theorem padLeft8_eq_self (s : String) (h : 8 ≤ s.length) : padLeft8 s = s := by
  unfold padLeft8
  rw [if_neg (by omega)]

theorem colorOverride_normArgs (r : LogRecord) :
    (normArgs r).colorOverride = r.colorOverride := by
  unfold normArgs LogRecord.colorOverride
  cases h : r.args with
  | none => simp [argsTruthy, dictGet, dictFind?]
  | some d => cases d <;> simp [argsTruthy, dictGet, dictFind?]

/-- Claim C3: for every record whose level name is one of the five supported
severities, the level name on the formatted record copy is exactly 8
characters wide once the zero-width ANSI color escapes are discounted —
whether or not color wrapping was applied. -/
theorem c3_levelname_width (self : LogFormatter) (r : LogRecord)
    (hl : r.levelname ∈ ["DEBUG", "INFO", "WARNING", "ERROR", "CRITICAL"]) :
    (stripAnsi ((formatRecordData self r).recordOut.levelname)).length = 8 := by
  obtain ⟨fmt, dc⟩ := self
  have hrw : (formatRecordData ⟨fmt, dc⟩ r).recordOut.levelname
      = formatLevelname dc r.levelname := rfl
  rw [hrw]
  simp only [List.mem_cons, List.not_mem_nil, or_false] at hl
  cases dc <;> rcases hl with h|h|h|h|h <;> rw [h] <;> decide

theorem c3_levelname_width_witness :
    (stripAnsi ((formatRecordData wFmtr wRec).recordOut.levelname)).length = 8 :=
  c3_levelname_width wFmtr wRec (by decide)

theorem recsGet_lt {l : List (Nat × LogRecord)} {n j : Nat} {r : LogRecord}
    (hwf : ∀ p ∈ l, p.1 < n) (hg : recsGet l j = Option.some r) : j < n := by
  induction l with
  | nil => simp [recsGet] at hg
  | cons p rest ih =>
    obtain ⟨i, r'⟩ := p
    by_cases hij : i = j
    · subst hij
      exact hwf (i, r') (List.mem_cons_self _ _)
    · simp only [recsGet, if_neg hij] at hg
      exact ih (fun q hq => hwf q (List.mem_cons_of_mem _ hq)) hg

/-- Claim C2: `LogFormatter.format` never mutates the record object it was
given — after the call the original record object (message, level name,
arguments and attribute mapping alike) is unchanged on the heap; only the
freshly allocated copy is modified. -/
theorem c2_format_no_mutation (self : LogFormatter) (h : Heap) (rid : Nat)
    (out : String × LogFormatter × Heap)
    (hwf : h.WF) (hcall : LogFormatter.format self h rid = Option.some out) :
    out.2.2.get rid = h.get rid := by
  unfold LogFormatter.format at hcall
  cases hg : h.get rid with
  | none => rw [hg] at hcall; simp at hcall
  | some r0 =>
    rw [hg] at hcall
    simp only [Option.map_some', Option.some.injEq] at hcall
    have hlt : rid < h.next := recsGet_lt hwf hg
    rw [← hcall]
    show Heap.get (Heap.set { recs := (h.next, r0) :: h.recs, next := h.next + 1 }
        h.next (formatRecordData self r0).recordOut) rid = Option.some r0
    unfold Heap.set Heap.get
    simp only [recsSet, if_pos rfl, recsGet, if_neg (Nat.ne_of_gt hlt)]
    exact hg

theorem c2_format_no_mutation_witness :
    wOut.2.2.get 0 = wHeap.get 0 :=
  c2_format_no_mutation wFmtr wHeap 0 wOut (by decide) (by decide)

/-- Claim C4: the format template active after a `LogFormatter.format` call
equals its value before the call (the per-call override never leaks), and
when the record carries no truthy color override while color is enabled, the
template in effect during rendering is the original template itself. -/
theorem c4_template_restored (self : LogFormatter) (h : Heap) (rid : Nat) (r : LogRecord) :
    (∀ out, LogFormatter.format self h rid = Option.some out → out.2.1.fmt = self.fmt) ∧
    (self.disable_color = false → (r.colorOverride).truthy = false →
      (formatRecordData self r).fmtUsed = self.fmt) := by
  constructor
  · intro out hcall
    unfold LogFormatter.format at hcall
    cases hg : h.get rid with
    | none => rw [hg] at hcall; simp at hcall
    | some r0 =>
      rw [hg] at hcall
      simp only [Option.map_some', Option.some.injEq] at hcall
      rw [← hcall]
  · intro hdc hov
    show fmtForRecord self (normArgs r) = self.fmt
    unfold fmtForRecord
    rw [colorOverride_normArgs, hov]
    simp

theorem c4_template_restored_witness :
    wOut.2.1.fmt = wFmtr.fmt ∧
    (formatRecordData wFmtr wRec).fmtUsed = wFmtr.fmt :=
  ⟨(c4_template_restored wFmtr wHeap 0 wRec).1 wOut (by decide),
   (c4_template_restored wFmtr wHeap 0 wRec).2 (by decide) (by decide)⟩

/-- Claim C5 counterexample: for an INFO record whose per-call color override
names an unknown color, the rendered line is not identical (even after
stripping every ANSI escape) to the line produced by the no-color path: the
override path renders just the raw message, dropping the level name. -/
theorem c5_counterexample :
    stripAnsi (formatRecordData wFmtr wRecOverride).result ≠
    stripAnsi (formatRecordData wFmtrNoColor wRecOverride).result := by decide

/-- Claim C5 (amended): an unknown color name — whether a per-call override
or an unmapped severity — falls back to the identity `default` wrapper and
the format call never fails; but because any truthy override replaces the
whole template with that wrapper applied to `"%(msg)s"`, the rendered line is
the bare message, not the no-color rendition of the original template. -/
theorem c5_unknown_color_fallback (self : LogFormatter) (r : LogRecord)
    (h : Heap) (rid : Nat) (r0 : LogRecord)
    (hdc : self.disable_color = false)
    (hov : (r.colorOverride).truthy = true)
    (hunk : hasattrCText (r.colorOverride).asStr = false)
    (hlvl : lookupStr colored_levels r.levelname = Option.none)
    (hget : h.get rid = Option.some r0) :
    (formatRecordData self r).fmtUsed = "%(msg)s" ∧
    (formatRecordData self r).recordOut.levelname = padLeft8 r.levelname ∧
    (LogFormatter.format self h rid).isSome = true := by
  refine ⟨?_, ?_, ?_⟩
  · show fmtForRecord self (normArgs r) = "%(msg)s"
    unfold fmtForRecord
    rw [colorOverride_normArgs, hdc, hov, hunk]
    simp [CText, ctextColors, lookupStr]
  · show formatLevelname self.disable_color r.levelname = padLeft8 r.levelname
    rw [hdc]
    unfold formatLevelname
    rw [hlvl]
    show padLeft8 (if false = false then CText "default" (padLeft8 r.levelname)
        else r.levelname) = padLeft8 r.levelname
    rw [if_pos rfl]
    show padLeft8 (padLeft8 r.levelname) = padLeft8 r.levelname
    exact padLeft8_eq_self _ (padLeft8_length _)
  · unfold LogFormatter.format
    rw [hget]
    rfl

theorem c5_unknown_color_fallback_witness :
    (formatRecordData wFmtr wRecUnknown).fmtUsed = "%(msg)s" ∧
    (formatRecordData wFmtr wRecUnknown).recordOut.levelname = padLeft8 "TRACE" ∧
    (LogFormatter.format wFmtr wHeapUnknown 0).isSome = true :=
  c5_unknown_color_fallback wFmtr wRecUnknown wHeapUnknown 0 wRecUnknown
    (by decide) (by decide) (by decide) (by decide) (by decide)

/-- Claim C10: whenever a record's `name` attribute is truthy, the formatted
copy's message is prefixed with `"<name>: "`; and since a standard record
carries its logger's name in that attribute, every record of a logger with a
non-empty name gets the prefix — with the logger's own name — even when no
filter injected a custom name. -/
theorem c10_name_prefixing (self : LogFormatter) (r : LogRecord) (ln lvl msg : String)
    (args : Option PyDict) :
    ((dictGet r.attrs "name").truthy = true →
      (formatRecordData self r).recordOut.msg
        = (dictGet r.attrs "name").asStr ++ ": " ++ r.msg) ∧
    (ln ≠ "" →
      (formatRecordData self (makeRecord ln lvl msg args)).recordOut.msg
        = ln ++ ": " ++ msg) := by
  constructor
  · intro ht
    show addNameToMsg (normArgs r) = _
    unfold addNameToMsg
    show (if (dictGet r.attrs "name").truthy then
        (dictGet r.attrs "name").asStr ++ ": " ++ r.msg else r.msg) = _
    rw [ht]
    simp
  · intro hln
    show addNameToMsg (normArgs (makeRecord ln lvl msg args)) = _
    unfold addNameToMsg
    show (if (PyVal.str ln).truthy then (PyVal.str ln).asStr ++ ": " ++ msg else msg)
        = ln ++ ": " ++ msg
    have hb : (ln == "") = false := beq_eq_false_iff_ne.mpr hln
    simp [PyVal.truthy, PyVal.asStr, hb]

theorem c10_name_prefixing_witness :
    (formatRecordData wFmtr wRec).recordOut.msg = "LOGGING: hello" ∧
    (formatRecordData wFmtr (makeRecord "WORKER" "INFO" "task done" Option.none)).recordOut.msg
      = "WORKER: task done" :=
  ⟨(c10_name_prefixing wFmtr wRec "x" "x" "x" Option.none).1 (by decide),
   (c10_name_prefixing wFmtr wRec "WORKER" "INFO" "task done" Option.none).2 (by decide)⟩
